import Mathlib

/-!
Verification of the turn-taking conversation controller of the
EnglishTeacher repository (a browser phone-English tutor).

The definitions below are a shallow embedding of the TypeScript source:

* `Message`, `PronunciationResult` embed the interfaces of `src/types.ts`;
* `mergePronunciation` embeds the backward-scanning in-place merge of a
  background pronunciation result into the history
  (`src/components/ActiveCallScreen.tsx`, inside `handleUserResponse`);
* `CallState`, `step`, `run` embed the `ActiveCallScreen` component as an
  event-driven state machine: React state hooks become record fields,
  asynchronous completions (playback end, the 1.5 s end-of-session timer,
  the background analysis promise) become explicit events, and the stale
  closure captured by `playAudio` (its `useCallback` value from the render
  in which the submission handler was created) is modelled by recording the
  captured `turnCount` / `messages` snapshot alongside the pending playback;
* `getTutorResponseText`, `analyzeStudentInput`, `generateFeedbackReport`
  embed the service wrappers of `src/services/geminiService.ts` (the version
  bundled with `src/types.ts`, which is the one `ActiveCallScreen` imports),
  with the network outcome supplied as an explicit parameter;
* `handleEndSession` embeds the App-level session-end handler.
-/

/-- Role of a history entry: the source uses the string literals
`'user' | 'model'` (`src/types.ts`, interface `Message`). -/
inductive Role where
  | user : Role
  | model : Role
deriving DecidableEq, Repr, BEq

/-- `PronunciationResult` of `src/types.ts`: a score (0-100, or the `-1`
sentinel produced for text-only input) and a feedback string. -/
structure PronunciationResult where
  score : Int
  feedback : String
deriving DecidableEq, Repr, BEq

/-- `Message` of `src/types.ts`. The optional `pronunciation` field is
back-filled by the background analysis merge. -/
structure Message where
  role : Role
  text : String
  timestamp : Nat
  pronunciation : Option PronunciationResult := none
deriving DecidableEq, Repr, BEq

/-- The match predicate of the merge loop in `handleUserResponse`
(`ActiveCallScreen.tsx` line 276):
`updated[i].role === 'user' && updated[i].text === text && !updated[i].pronunciation`.
A `PronunciationResult` object is always truthy in JS, so the truthiness
test `!updated[i].pronunciation` is exactly `pronunciation.isNone`. -/
def isUnscoredUserWith (t : String) (m : Message) : Bool :=
  m.role == Role.user && m.text == t && m.pronunciation.isNone

/-- Attach a pronunciation result to an entry (the assignment
`updated[i].pronunciation = pronunciation`). -/
def withPron (p : PronunciationResult) (m : Message) : Message :=
  { m with pronunciation := some p }

/-- Scan of the merge loop, expressed on the reversed history: the source
iterates `for (let i = updated.length - 1; i >= 0; i--)` and `break`s at the
first entry satisfying `isUnscoredUserWith`, which on the reversed list is a
front-to-back scan updating the first match. -/
def mergeRev (t : String) (p : PronunciationResult) : List Message → List Message
  | [] => []
  | m :: rest =>
    if isUnscoredUserWith t m then withPron p m :: rest
    else m :: mergeRev t p rest

/-- The merge of a resolved pronunciation analysis into the history
(`ActiveCallScreen.tsx` lines 273-282): copy the list, scan from the most
recent entry backward, update the first unscored user entry with matching
text, stop. -/
def mergePronunciation (t : String) (p : PronunciationResult) (ms : List Message) :
    List Message :=
  (mergeRev t p ms.reverse).reverse

/-- The property claimed for the merge: length and order of the history are
unchanged, no entry is created, and exactly one entry — the one found by
scanning from the most recent entry backward for the first unscored user
entry with matching text — receives the result. -/
def MergeUpdatesExactlyOne (t : String) (p : PronunciationResult)
    (ms : List Message) : Prop :=
  (mergePronunciation t p ms).length = ms.length ∧
  ∃ i, ∃ hi : i < ms.length,
    isUnscoredUserWith t (ms.get ⟨i, hi⟩) = true ∧
    (∀ j, ∀ hj : j < ms.length, i < j →
      isUnscoredUserWith t (ms.get ⟨j, hj⟩) = false) ∧
    (∀ hi' : i < (mergePronunciation t p ms).length,
      (mergePronunciation t p ms).get ⟨i, hi'⟩ = withPron p (ms.get ⟨i, hi⟩)) ∧
    (∀ j, ∀ hj : j < ms.length, ∀ hj' : j < (mergePronunciation t p ms).length,
      j ≠ i → (mergePronunciation t p ms).get ⟨j, hj'⟩ = ms.get ⟨j, hj⟩)

/-- Concrete two-entry history used to witness the merge theorem. -/
def witnessHistoryC1 : List Message :=
  [{ role := Role.model, text := "Hello! Where do you want to travel?", timestamp := 0 },
   { role := Role.user, text := "I want to go to Japan", timestamp := 1 }]

/-- Input mode of the controls area (`inputMode` state hook). -/
inductive InputMode where
  | voice : InputMode
  | text : InputMode
deriving DecidableEq, Repr, BEq

/-- Outcome of the reply-generation network request made inside
`getTutorResponse` (`geminiService`): either the service answered with a
text (possibly empty), or the request rejected. -/
inductive ReplyOutcome where
  | ok : String → ReplyOutcome
  | requestError : ReplyOutcome
deriving DecidableEq, Repr, BEq

/-- `getTutorResponse` never rejects: on success it returns
`response.text || "I see. Let's continue."`; its own `catch` converts a
request failure into the fixed string
"I'm having trouble connecting. Could you say that again?". -/
def getTutorResponseText : ReplyOutcome → String
  | ReplyOutcome.ok t => if t = "" then "I see. Let's continue." else t
  | ReplyOutcome.requestError => "I'm having trouble connecting. Could you say that again?"

/-- The fixed fallback text returned by `getTutorResponse` when the
reply-generation request fails. -/
def connectFallbackText : String :=
  "I'm having trouble connecting. Could you say that again?"

/-- The fixed fallback message text appended by the `catch` of
`handleUserResponse` (reached when `generateSpeech` or the playback setup
throws). -/
def synthFailText : String :=
  "Sorry, I had trouble connecting. Let's try again."

/-- The notice shown by `stopListeningAndSend` when the accumulated
transcript is empty or whitespace-only. -/
def noSpeechText : String :=
  "No speech detected. Please try again."

/-- Outcome of one exchange's external calls: the reply-generation result
and whether the speech synthesis + playback setup succeeded
(`generateSpeech` or `playAudio` throwing lands in the `catch`). -/
structure ExchangeOutcome where
  reply : ReplyOutcome
  synthOk : Bool
deriving DecidableEq, Repr, BEq

/-- `finalTranscript.trim().length > 0` / `textInput.trim().length > 0`:
true iff the string has a non-whitespace character. -/
def trimmedNonempty (s : String) : Bool :=
  s.data.any (fun c => !c.isWhitespace)

/-- Closure snapshot captured by the `playAudio` value used for a playback:
`playAudio` is a `useCallback` whose body reads `turnCount` and `messages`;
the submission handler invokes the `playAudio` value of the render in which
the handler itself was created, so `onended` sees the `turnCount` and
`messages` of that render — the values from before the submission's own
updates. -/
structure PlaybackCapture where
  turnCount : Nat
  messages : List Message
deriving DecidableEq, Repr, BEq

/-- State of one `ActiveCallScreen` session. React `useState` hooks become
fields; `synthRequests` logs every text sent to `generateSpeech`;
`pendingPlayback` holds the closure snapshot of an in-flight playback's
`onended` handler; `endScheduled` holds the history that the pending
1.5 s timer will hand to `onEndSession`; `endedHistory` records the history
actually passed to `onEndSession` once the timer fires. -/
structure CallState where
  messages : List Message
  isListening : Bool
  isSpeaking : Bool
  isProcessing : Bool
  inputMode : InputMode
  textInput : String
  transcript : String
  turnCount : Nat
  pendingPlayback : Option PlaybackCapture
  endScheduled : Option (List Message)
  endedHistory : Option (List Message)
  synthRequests : List String
deriving DecidableEq, Repr, BEq

/-- `MAX_TURNS = 5` (`ActiveCallScreen.tsx` line 32). -/
def MAX_TURNS : Nat := 5

/-- The synchronous statements at the top of `handleUserResponse`
(lines 250-258), in source order. -/
inductive HandlerAction where
  | setProcessingTrue : HandlerAction
  | incTurnCount : HandlerAction
  | appendUserMessage : HandlerAction
  | clearTranscript : HandlerAction
deriving DecidableEq, Repr, BEq

/-- Effect of each synchronous statement of the `handleUserResponse`
prelude on the session state. -/
def applyAction (txt : String) (ts : Nat) (s : CallState) :
    HandlerAction → CallState
  | HandlerAction.setProcessingTrue => { s with isProcessing := true }
  | HandlerAction.incTurnCount => { s with turnCount := s.turnCount + 1 }
  | HandlerAction.appendUserMessage =>
      { s with messages :=
          s.messages ++ [{ role := Role.user, text := txt, timestamp := ts }] }
  | HandlerAction.clearTranscript => { s with transcript := "" }

/-- The source order of the synchronous prelude of `handleUserResponse`:
`setIsProcessing(true)` (line 250), `setTurnCount(turnCount + 1)`
(lines 252-253), the optimistic `setMessages(prev => [...prev, userMsg])`
append (line 256), then clearing the transcript (lines 257-258). -/
def handlerPrelude : List HandlerAction :=
  [HandlerAction.setProcessingTrue, HandlerAction.incTurnCount,
   HandlerAction.appendUserMessage, HandlerAction.clearTranscript]

/-- `handleUserResponse(text, hasAudio)` (lines 249-304), with the network
outcomes explicit. After the synchronous prelude, the reply text is obtained
(`getTutorResponse` never rejects), the assistant message is appended, and
`generateSpeech` is requested for it. If synthesis and playback setup
succeed, playback starts: `isSpeaking` becomes true and the `onended`
handler holds the closure snapshot of the render the submission handler came
from (the pre-submission `turnCount` and `messages`). If synthesis throws,
the `catch` appends the fixed "Sorry, I had trouble connecting" assistant
message and no playback starts. Either way `isProcessing` ends false. -/
def handleUserResponse (s : CallState) (txt : String) (ts : Nat)
    (out : ExchangeOutcome) : CallState :=
  let s1 : CallState := handlerPrelude.foldl (applyAction txt ts) s
  let reply := getTutorResponseText out.reply
  let s2 : CallState := { s1 with
    messages := s1.messages ++ [{ role := Role.model, text := reply, timestamp := ts }],
    synthRequests := s1.synthRequests ++ [reply] }
  if out.synthOk then
    { s2 with
      isSpeaking := true,
      isProcessing := false,
      pendingPlayback := some { turnCount := s.turnCount, messages := s.messages } }
  else
    { s2 with
      messages := s2.messages ++
        [{ role := Role.model, text := synthFailText, timestamp := ts }],
      isProcessing := false }

/-- `startListening` (lines 208-216): guarded by not listening, not
processing, not speaking; voice-mode only (the mic button exists only in
voice mode). `recognition.onstart` clears the transcript. -/
def startListening (s : CallState) : CallState :=
  if s.inputMode = InputMode.voice ∧ s.isListening = false ∧
      s.isProcessing = false ∧ s.isSpeaking = false then
    { s with isListening := true, transcript := "" }
  else s

/-- `stopListeningAndSend` (lines 218-240): stop recognition (listening
ends), read the settled transcript; if it has a non-whitespace character run
`handleUserResponse` with it (voice path), otherwise show the
"No speech detected" notice and create no turn. -/
def stopListeningAndSend (s : CallState) (ts : Nat) (out : ExchangeOutcome) :
    CallState :=
  if s.isListening = false then s
  else
    let s0 := { s with isListening := false }
    if trimmedNonempty s.transcript then handleUserResponse s0 s.transcript ts out
    else { s0 with transcript := noSpeechText }

/-- `handleSendText` (lines 242-247) with its enabling conditions (the text
input and send button are disabled while processing or speaking): submit the
typed text through `handleUserResponse`, then clear the input. -/
def handleSendText (s : CallState) (ts : Nat) (out : ExchangeOutcome) :
    CallState :=
  if s.inputMode = InputMode.text ∧ s.isProcessing = false ∧
      s.isSpeaking = false ∧ trimmedNonempty s.textInput then
    { handleUserResponse s s.textInput ts out with textInput := "" }
  else s

/-- `source.onended` (lines 178-184): stop the speaking indicator; if the
captured `turnCount` (the closure value, not the current one) has reached
`MAX_TURNS`, schedule `onEndSession` with the captured `messages` after
1.5 s. -/
def playbackEnds (s : CallState) : CallState :=
  match s.pendingPlayback with
  | none => s
  | some cap =>
    let s0 := { s with isSpeaking := false, pendingPlayback := none }
    if MAX_TURNS ≤ cap.turnCount then { s0 with endScheduled := some cap.messages }
    else s0

/-- The 1.5 s timer firing: `onEndSession(messages)` receives the history
snapshot the timer closure holds. -/
def endTimerFires (s : CallState) : CallState :=
  match s.endScheduled with
  | none => s
  | some h => { s with endScheduled := none, endedHistory := some h }

/-- `toggleMode` (lines 306-312): stop listening if necessary, flip the
input mode. -/
def toggleMode (s : CallState) : CallState :=
  { s with isListening := false,
           inputMode := if s.inputMode = InputMode.voice then InputMode.text
                        else InputMode.voice }

/-- Asynchronous events driving one session: user actions and service
completions. `recognize` is `recognition.onresult` (cumulative transcript);
`mergeArrives` is the resolution of a background `analyzeStudentInput`
promise together with the truthiness test and merge in its `.then`. -/
inductive Event where
  | tapMic : Event
  | recognize : String → Event
  | stopAndSend : Nat → ExchangeOutcome → Event
  | setTextInput : String → Event
  | sendText : Nat → ExchangeOutcome → Event
  | toggle : Event
  | playbackDone : Event
  | endTimer : Event
  | mergeArrives : String → PronunciationResult → Event
deriving DecidableEq, Repr, BEq

/-- One step of the session state machine. Events whose guards fail leave
the state unchanged (the corresponding handler is disabled or a no-op). -/
def step (s : CallState) : Event → CallState
  | Event.tapMic => startListening s
  | Event.recognize t => if s.isListening then { s with transcript := t } else s
  | Event.stopAndSend ts out => stopListeningAndSend s ts out
  | Event.setTextInput t =>
      if s.inputMode = InputMode.text ∧ s.isProcessing = false ∧
          s.isSpeaking = false then
        { s with textInput := t }
      else s
  | Event.sendText ts out => handleSendText s ts out
  | Event.toggle => toggleMode s
  | Event.playbackDone => playbackEnds s
  | Event.endTimer => endTimerFires s
  | Event.mergeArrives t p => { s with messages := mergePronunciation t p s.messages }

/-- Run a sequence of events. -/
def run (s : CallState) (es : List Event) : CallState :=
  es.foldl step s

/-- The state right after the initial-load effect (lines 192-206): the
greeting is the only history entry; its synthesis was requested; if it
succeeded, playback is running with the first render's closure snapshot
(`turnCount = 0` and the pre-greeting empty `messages`); if it threw, the
failure is only logged. -/
def initState (greeting : String) (greetingSynthOk : Bool) : CallState :=
  { messages := [{ role := Role.model, text := greeting, timestamp := 0 }],
    isListening := false,
    isSpeaking := greetingSynthOk,
    isProcessing := false,
    inputMode := InputMode.voice,
    textInput := "",
    transcript := "",
    turnCount := 0,
    pendingPlayback :=
      if greetingSynthOk then some { turnCount := 0, messages := [] } else none,
    endScheduled := none,
    endedHistory := none,
    synthRequests := [greeting] }
/-- A successful exchange outcome: the reply request answers `r` and
synthesis + playback succeed. -/
def okOut (r : String) : ExchangeOutcome :=
  { reply := ReplyOutcome.ok r, synthOk := true }

/-- A concrete session trace: the greeting playback ends, the user switches
to text mode and completes six exchanges (typing an answer, sending it, the
reply playing back fully), then the end-of-session timer fires. Every
service call succeeds. -/
def demoTrace : List Event :=
  [Event.toggle, Event.playbackDone,
   Event.setTextInput "My first answer", Event.sendText 1 (okOut "Reply one"),
   Event.playbackDone,
   Event.setTextInput "My second answer", Event.sendText 2 (okOut "Reply two"),
   Event.playbackDone,
   Event.setTextInput "My third answer", Event.sendText 3 (okOut "Reply three"),
   Event.playbackDone,
   Event.setTextInput "My fourth answer", Event.sendText 4 (okOut "Reply four"),
   Event.playbackDone,
   Event.setTextInput "My fifth answer", Event.sendText 5 (okOut "Reply five"),
   Event.playbackDone,
   Event.setTextInput "A sixth answer", Event.sendText 6 (okOut "Reply six"),
   Event.playbackDone,
   Event.endTimer]

/-- The prefix of `demoTrace` covering exactly the first five user turns,
ending with the playback of the fifth assistant reply finishing. -/
def fiveTurnTrace : List Event :=
  demoTrace.take 17

/-- A trace in which the single exchange's reply generation succeeds but
speech synthesis throws. -/
def synthFailTrace : List Event :=
  [Event.toggle, Event.playbackDone, Event.setTextInput "Hi there",
   Event.sendText 1 { reply := ReplyOutcome.ok "Nice!", synthOk := false }]

/-- The role pattern the spec asserts for the history after `n` completed
exchanges: the assistant greeting followed by `n` strictly alternating
user/assistant pairs. -/
def rolePattern : Nat → List Role
  | 0 => [Role.model]
  | n + 1 => rolePattern n ++ [Role.user, Role.model]

/-- Whether an event's speech-synthesis call (if any) succeeds. -/
def eventSynthOk : Event → Bool
  | Event.stopAndSend _ out => out.synthOk
  | Event.sendText _ out => out.synthOk
  | _ => true

/-- A quiescent text-mode session state (greeting synthesis failed, so no
playback is pending), used as a concrete base state. -/
def textIdleState : CallState :=
  { initState "Hi" false with inputMode := InputMode.text }

/-- A concrete text-mode state whose turn counter already equals
`MAX_TURNS`, with an answer typed and no operation in progress. -/
def atMaxTurnsState : CallState :=
  { textIdleState with textInput := "Sure", turnCount := 5 }

/-- A concrete state in which capture is running and the accumulated
transcript is whitespace-only. -/
def listeningBlankState : CallState :=
  { initState "Hi" false with isListening := true, transcript := "   " }

/-- Conclusion of the stop-of-capture claim: with an empty or
whitespace-only transcript the stop creates no turn, leaves the counter
alone, shows the "no speech detected" notice and ends listening; with a
non-whitespace transcript it runs the normal `handleUserResponse` path on
that transcript. -/
def StopCaptureSpec (s : CallState) (ts : Nat) (out : ExchangeOutcome) : Prop :=
  (trimmedNonempty s.transcript = false →
    (step s (Event.stopAndSend ts out)).messages = s.messages ∧
    (step s (Event.stopAndSend ts out)).turnCount = s.turnCount ∧
    (step s (Event.stopAndSend ts out)).transcript = noSpeechText ∧
    (step s (Event.stopAndSend ts out)).isListening = false ∧
    (step s (Event.stopAndSend ts out)).isProcessing = s.isProcessing ∧
    (step s (Event.stopAndSend ts out)).isSpeaking = s.isSpeaking) ∧
  (trimmedNonempty s.transcript = true →
    step s (Event.stopAndSend ts out)
      = handleUserResponse { s with isListening := false } s.transcript ts out)

/-- `FeedbackItem` of `src/types.ts`. -/
structure FeedbackItem where
  original : String
  corrected : String
  explanation : String
deriving DecidableEq, Repr, BEq

/-- `VocabularyItem` of `src/types.ts`. -/
structure VocabularyItem where
  word : String
  definition : String
deriving DecidableEq, Repr, BEq

/-- The `pronunciationReview` object of `SessionFeedback` (`src/types.ts`). -/
structure PronunciationReview where
  averageScore : Int
  tips : List String
deriving DecidableEq, Repr, BEq

/-- `SessionFeedback` of `src/types.ts`. The interface declares
`pronunciationReview` as required, but the App-level fallback object in
`handleEndSession` omits it (TypeScript types are erased at runtime and
`FeedbackScreen` reads the field with optional chaining), so the embedding
makes the field an `Option`. -/
structure SessionFeedback where
  overallComments : String
  corrections : List FeedbackItem
  vocabulary : List VocabularyItem
  pronunciationReview : Option PronunciationReview
deriving DecidableEq, Repr, BEq

/-- Outcome of the feedback-report network call: the request rejected, or it
answered and `JSON.parse(response.text || "{}")` either produced a report or
threw (`responseOk none`). -/
inductive ReportFetch where
  | requestError : ReportFetch
  | responseOk : Option SessionFeedback → ReportFetch
deriving DecidableEq, Repr, BEq

/-- The default report substituted by `generateFeedbackReport`'s own `catch`
when the response cannot be parsed (`geminiService.ts`). -/
def parseFailFeedback : SessionFeedback :=
  { overallComments := "Could not generate feedback.", corrections := [],
    vocabulary := [],
    pronunciationReview := some { averageScore := 0, tips := [] } }

/-- The fallback report set by the App's `handleEndSession` `catch` when
`generateFeedbackReport` rejects: note it has no `pronunciationReview`
field at all. -/
def appFallbackFeedback : SessionFeedback :=
  { overallComments := "Great practice session!", corrections := [],
    vocabulary := [],
    pronunciationReview := none }

/-- `generateFeedbackReport` (`geminiService.ts`): the request itself is not
wrapped in `try`, so a request error propagates to the caller; only
`JSON.parse` failure is caught locally and replaced by the parse-failure
default. -/
def generateFeedbackReport : ReportFetch → Except Unit SessionFeedback
  | ReportFetch.requestError => Except.error ()
  | ReportFetch.responseOk (some fb) => Except.ok fb
  | ReportFetch.responseOk none => Except.ok parseFailFeedback

/-- `AppState` of `src/types.ts`. -/
inductive AppState where
  | SETUP : AppState
  | CALL_ACTIVE : AppState
  | FEEDBACK_LOADING : AppState
  | FEEDBACK_VIEW : AppState
deriving DecidableEq, Repr, BEq

/-- `handleEndSession` of the App component: await the report; on success
show it; on rejection substitute `appFallbackFeedback`; either way end in
the `FEEDBACK_VIEW` terminal state. -/
def handleEndSession (r : ReportFetch) : AppState × Option SessionFeedback :=
  match generateFeedbackReport r with
  | Except.ok rep => (AppState.FEEDBACK_VIEW, some rep)
  | Except.error _ => (AppState.FEEDBACK_VIEW, some appFallbackFeedback)

/-- The average score `FeedbackScreen` displays:
`feedback.pronunciationReview?.averageScore || 0`. -/
def displayedAvgScore (fb : SessionFeedback) : Int :=
  match fb.pronunciationReview with
  | some r => r.averageScore
  | none => 0

/-- Whether a report fetch counts as a failure (request error or
unparseable response). -/
def reportFetchFails : ReportFetch → Bool
  | ReportFetch.requestError => true
  | ReportFetch.responseOk none => true
  | ReportFetch.responseOk (some _) => false

/-- Read one little-endian signed 16-bit sample from two bytes, as
`Int16Array` does over the raw buffer. -/
def toInt16 (lo hi : Nat) : Int :=
  let u := lo + 256 * hi
  if u < 32768 then (u : Int) else (u : Int) - 65536

/-- View a byte buffer as consecutive signed 16-bit integers
(`new Int16Array(arrayBuffer)`); a buffer of odd byte length makes the
`Int16Array` constructor throw, modelled as `none`. -/
def bytesToInt16 : List Nat → Option (List Int)
  | [] => some []
  | [_] => none
  | lo :: hi :: rest => (bytesToInt16 rest).map (fun l => toInt16 lo hi :: l)

/-- `channelData[i] = dataInt16[i] / 32768.0` (`playAudio`, line 168). -/
def normalizeSample (i : Int) : ℚ :=
  (i : ℚ) / 32768

/-- The audio buffer `playAudio` constructs:
`createBuffer(numChannels, dataInt16.length, sampleRate)` with
`sampleRate = 24000` and `numChannels = 1`, filled with the normalized
samples. -/
structure DecodedAudio where
  sampleRate : Nat
  numChannels : Nat
  samples : List ℚ
deriving DecidableEq, Repr

/-- The manual PCM decode of `playAudio` (lines 157-169): no
container-aware decoder is involved, only the `Int16Array` view and the
per-sample division by 32768. -/
def playAudioDecode (bs : List Nat) : Option DecodedAudio :=
  (bytesToInt16 bs).map (fun ints =>
    { sampleRate := 24000, numChannels := 1,
      samples := ints.map normalizeSample })

/-- The sentinel `analyzeStudentInput` returns when no audio is attached:
`{score: -1, feedback: "Text input provided."}`. -/
def sentinelPron : PronunciationResult :=
  { score := -1, feedback := "Text input provided." }

/-- Outcome of the pronunciation-analysis network call: rejection or
unparseable JSON (`failure`, both land in the `catch`), or a parsed JSON
object with its optional `score` and `feedback` fields. -/
inductive AnalysisOutcome where
  | failure : AnalysisOutcome
  | json : Option Int → Option String → AnalysisOutcome
deriving DecidableEq, Repr, BEq

/-- `analyzeStudentInput` (`geminiService.ts`): with no audio it returns the
sentinel immediately — before any network request, so the result does not
depend on the service outcome `o`. With audio, a failed call yields
`undefined` and a parsed response is read with `json.score ?? 0` and
`json.feedback || "No feedback available."`. -/
def analyzeStudentInput (userText : String) (audioBase64 : Option String)
    (o : AnalysisOutcome) : Option PronunciationResult :=
  match audioBase64 with
  | none => some sentinelPron
  | some _ =>
    match o with
    | AnalysisOutcome.failure => none
    | AnalysisOutcome.json sc fb =>
      some { score := sc.getD 0,
             feedback :=
               match fb with
               | some f => if f = "" then "No feedback available." else f
               | none => "No feedback available." }

/-- String form of a role as interpolated by `${m.role}`. -/
def roleString : Role → String
  | Role.user => "user"
  | Role.model => "model"

/-- One line of the history text handed to the feedback generator
(`generateFeedbackReport` in the service bundled with `src/types.ts`): the
pronunciation annotation is added only when a result is present with
`score >= 0`. -/
def feedbackHistoryLine (m : Message) : String :=
  let entry := roleString m.role ++ ": " ++ m.text
  match m.pronunciation with
  | some p =>
    if 0 ≤ p.score then
      entry ++ "\n(Pronunciation Score: " ++ toString p.score ++
        ", Feedback: " ++ p.feedback ++ ")"
    else entry
  | none => entry

/-- The full history text handed to the feedback generator:
`history.map(...).join('\n---\n')`. -/
def feedbackHistoryText (ms : List Message) : String :=
  String.intercalate "\n---\n" (ms.map feedbackHistoryLine)

/-- The guard of the pronunciation bubble in the chat area
(`ActiveCallScreen.tsx` line 346):
`msg.role === 'user' && msg.pronunciation && msg.pronunciation.score >= 0`. -/
def showPronBubble (m : Message) : Bool :=
  m.role == Role.user &&
    (match m.pronunciation with
     | some p => decide (0 ≤ p.score)
     | none => false)

/-- The decoded buffer for the concrete two-byte witness input `[0, 128]`:
one most-negative sample. -/
def decodedC8 : DecodedAudio :=
  { sampleRate := 24000, numChannels := 1, samples := [-1] }

theorem mergeRev_length (t : String) (p : PronunciationResult) :
    ∀ l : List Message, (mergeRev t p l).length = l.length := by
  intro l
  induction l with
  | nil => rfl
  | cons m rest ih =>
    by_cases h : isUnscoredUserWith t m
    · simp [mergeRev, h]
    · simp [mergeRev, h, ih]

theorem mergePronunciation_length (t : String) (p : PronunciationResult)
    (ms : List Message) : (mergePronunciation t p ms).length = ms.length := by
  simp [mergePronunciation, mergeRev_length]

/-- If no entry matches, the backward scan leaves the list unchanged. -/
theorem mergeRev_no_match (t : String) (p : PronunciationResult) :
    ∀ l : List Message, l.all (fun m => !isUnscoredUserWith t m) →
      mergeRev t p l = l := by
  intro l
  induction l with
  | nil => intro; rfl
  | cons m rest ih =>
    intro h
    simp only [List.all_cons, Bool.and_eq_true, Bool.not_eq_true'] at h
    simp [mergeRev, h.1, ih (by simpa using h.2)]

/-- Full characterisation of the backward scan on the reversed list: when a
match exists, there is a first matching position `k`; the entry there gets
the result and every other entry is untouched. -/
theorem mergeRev_spec (t : String) (p : PronunciationResult) :
    ∀ l : List Message, l.any (isUnscoredUserWith t) →
      ∃ k, ∃ hk : k < l.length,
        isUnscoredUserWith t (l.get ⟨k, hk⟩) = true ∧
        (∀ j, ∀ hj : j < l.length, j < k →
          isUnscoredUserWith t (l.get ⟨j, hj⟩) = false) ∧
        ∀ j, ∀ hj : j < l.length, ∀ hj' : j < (mergeRev t p l).length,
          (mergeRev t p l).get ⟨j, hj'⟩ =
            (if j = k then withPron p (l.get ⟨j, hj⟩) else l.get ⟨j, hj⟩) := by
  intro l
  induction l with
  | nil => intro h; simp at h
  | cons m rest ih =>
    intro h
    by_cases hm : isUnscoredUserWith t m
    · refine ⟨0, by simp, by simpa using hm, ?_, ?_⟩
      · intro j hj hjk; omega
      · intro j hj hj'
        match j with
        | 0 => simp [mergeRev, hm]
        | j + 1 => simp [mergeRev, hm]
    · have hrest : rest.any (isUnscoredUserWith t) := by
        simp only [List.any_cons, Bool.or_eq_true] at h
        rcases h with h | h
        · exact absurd h hm
        · exact h
      obtain ⟨k, hk, hmatch, hbefore, hget⟩ := ih hrest
      refine ⟨k + 1, by simpa using Nat.succ_lt_succ hk, by simpa using hmatch, ?_, ?_⟩
      · intro j hj hjk
        match j with
        | 0 => simpa using hm
        | j + 1 =>
          exact hbefore j (by simpa using hj) (by omega)
      · intro j hj hj'
        match j with
        | 0 => simp [mergeRev, hm]
        | j + 1 =>
          have hj1 : j < rest.length := by simpa using hj
          have hj1' : j < (mergeRev t p rest).length := by
            simpa [mergeRev_length] using hj1
          have h2 := hget j hj1 hj1'
          simpa [mergeRev, hm, Nat.succ_inj] using h2

/-- Claim C1: for every pronunciation-analysis result that resolves for a
user turn with text `t` (so that an unscored user entry with text `t` is in
the history), the merge updates exactly one entry — the first match found
scanning from the most recent entry backward — never creates an entry, and
leaves length and order of the history unchanged. -/
theorem claimC1_merge_updates_exactly_one (ms : List Message) (t : String)
    (p : PronunciationResult) (h : ms.any (isUnscoredUserWith t) = true) :
    MergeUpdatesExactlyOne t p ms := by
  have hl : ms.reverse.any (isUnscoredUserWith t) = true := by simpa using h
  obtain ⟨k, hk, hmatch, hbefore, hget⟩ := mergeRev_spec t p ms.reverse hl
  have hk' : k < ms.length := by simpa using hk
  have hrev : ∀ (j2 : Nat) (hj2 : j2 < ms.reverse.length)
      (hj3 : ms.length - 1 - j2 < ms.length),
      ms.reverse.get ⟨j2, hj2⟩ = ms.get ⟨ms.length - 1 - j2, hj3⟩ := by
    intro j2 hj2 hj3
    simp only [List.get_eq_getElem, List.getElem_reverse]
  have hcast : ∀ (a b : Nat) (ha : a < ms.length) (hb : b < ms.length),
      a = b → ms.get ⟨a, ha⟩ = ms.get ⟨b, hb⟩ := by
    intro a b ha hb hab
    subst hab
    rfl
  have hlenL : (mergeRev t p ms.reverse).length = ms.length := by
    simp [mergeRev_length]
  refine ⟨mergePronunciation_length t p ms, ms.length - 1 - k, by omega, ?_, ?_, ?_, ?_⟩
  · have hb : ms.length - 1 - (ms.length - 1 - k) < ms.length := by omega
    have e1 := hrev k hk (by omega)
    rw [e1] at hmatch
    exact (hcast (ms.length - 1 - k) (ms.length - 1 - k) (by omega) (by omega) rfl) ▸ hmatch
  · intro j hj hij
    have hbj : ms.length - 1 - j < ms.reverse.length := by simpa using (by omega : ms.length - 1 - j < ms.length)
    have h0 := hbefore (ms.length - 1 - j) hbj (by omega)
    rw [hrev (ms.length - 1 - j) hbj (by omega)] at h0
    have := hcast (ms.length - 1 - (ms.length - 1 - j)) j (by omega) hj (by omega)
    rw [this] at h0
    exact h0
  · intro hi'
    have hi2 : ms.length - 1 - (ms.length - 1 - k) < (mergeRev t p ms.reverse).length := by
      omega
    have e2 : (mergePronunciation t p ms).get ⟨ms.length - 1 - k, hi'⟩ =
        (mergeRev t p ms.reverse).get
          ⟨ms.length - 1 - (ms.length - 1 - k), hi2⟩ := by
      simp only [mergePronunciation, List.get_eq_getElem, List.getElem_reverse]
      congr 1
      omega
    rw [e2]
    have hb3 : ms.length - 1 - (ms.length - 1 - k) < ms.reverse.length := by
      simpa using (by omega : ms.length - 1 - (ms.length - 1 - k) < ms.length)
    have h3 := hget (ms.length - 1 - (ms.length - 1 - k)) hb3 hi2
    have hkk : ms.length - 1 - (ms.length - 1 - k) = k := by omega
    rw [if_pos hkk] at h3
    rw [h3]
    rw [hrev (ms.length - 1 - (ms.length - 1 - k)) hb3 (by omega)]
    have := hcast (ms.length - 1 - (ms.length - 1 - (ms.length - 1 - k)))
      (ms.length - 1 - k) (by omega) (by omega) (by omega)
    rw [this]
  · intro j hj hj' hne
    have hj2 : ms.length - 1 - j < (mergeRev t p ms.reverse).length := by omega
    have e2 : (mergePronunciation t p ms).get ⟨j, hj'⟩ =
        (mergeRev t p ms.reverse).get ⟨ms.length - 1 - j, hj2⟩ := by
      simp only [mergePronunciation, List.get_eq_getElem, List.getElem_reverse]
      congr 1
      omega
    rw [e2]
    have hb3 : ms.length - 1 - j < ms.reverse.length := by
      simpa using (by omega : ms.length - 1 - j < ms.length)
    have h3 := hget (ms.length - 1 - j) hb3 hj2
    have hkk : ¬ (ms.length - 1 - j = k) := by omega
    rw [if_neg hkk] at h3
    rw [h3]
    rw [hrev (ms.length - 1 - j) hb3 (by omega)]
    exact hcast (ms.length - 1 - (ms.length - 1 - j)) j (by omega) hj (by omega)

/-- Witness for claim C1 at a concrete history: the hypothesis (an unscored
matching user entry exists) holds and the theorem applies. -/
theorem claimC1_witness :
    witnessHistoryC1.any (isUnscoredUserWith "I want to go to Japan") = true ∧
    MergeUpdatesExactlyOne "I want to go to Japan"
      { score := 82, feedback := "Good rhythm." } witnessHistoryC1 :=
  ⟨by decide,
   claimC1_merge_updates_exactly_one witnessHistoryC1 "I want to go to Japan"
     { score := 82, feedback := "Good rhythm." } (by decide)⟩

theorem mergeRev_map_role (t : String) (p : PronunciationResult) :
    ∀ l : List Message, (mergeRev t p l).map Message.role = l.map Message.role := by
  intro l
  induction l with
  | nil => rfl
  | cons m rest ih =>
    by_cases h : isUnscoredUserWith t m
    · simp [mergeRev, h, withPron]
    · simp [mergeRev, h, ih]

theorem mergePronunciation_map_role (t : String) (p : PronunciationResult)
    (ms : List Message) :
    (mergePronunciation t p ms).map Message.role = ms.map Message.role := by
  have h := mergeRev_map_role t p ms.reverse
  calc (mergePronunciation t p ms).map Message.role
      = ((mergeRev t p ms.reverse).map Message.role).reverse := by
        simp [mergePronunciation]
    _ = (ms.reverse.map Message.role).reverse := by rw [h]
    _ = ms.map Message.role := by simp

theorem rolePattern_length : ∀ n : Nat, (rolePattern n).length = 2 * n + 1 := by
  intro n
  induction n with
  | zero => rfl
  | succ k ih =>
    simp only [rolePattern, List.length_append, ih, List.length_cons,
      List.length_nil]
    omega

/-- Shape of a completed exchange whose synthesis succeeded: append the
user turn then the assistant reply, count the turn, start speaking with the
pre-submission closure snapshot. -/
theorem handleUserResponse_ok_spec (s : CallState) (txt : String) (ts : Nat)
    (out : ExchangeOutcome) (h : out.synthOk = true) :
    (handleUserResponse s txt ts out).messages =
      s.messages ++
        [{ role := Role.user, text := txt, timestamp := ts },
         { role := Role.model, text := getTutorResponseText out.reply,
           timestamp := ts }] ∧
    (handleUserResponse s txt ts out).turnCount = s.turnCount + 1 ∧
    (handleUserResponse s txt ts out).isSpeaking = true ∧
    (handleUserResponse s txt ts out).isProcessing = false ∧
    (handleUserResponse s txt ts out).pendingPlayback =
      some { turnCount := s.turnCount, messages := s.messages } ∧
    (handleUserResponse s txt ts out).synthRequests =
      s.synthRequests ++ [getTutorResponseText out.reply] := by
  refine ⟨?_, ?_, ?_, ?_, ?_, ?_⟩ <;>
    simp [handleUserResponse, handlerPrelude, applyAction, h]

/-- Shape of a completed exchange whose synthesis (or playback setup)
threw: the reply is still appended, then the catch appends the fixed
fallback message too; no playback starts. -/
theorem handleUserResponse_synthFail_spec (s : CallState) (txt : String)
    (ts : Nat) (out : ExchangeOutcome) (h : out.synthOk = false) :
    (handleUserResponse s txt ts out).messages =
      s.messages ++
        [{ role := Role.user, text := txt, timestamp := ts },
         { role := Role.model, text := getTutorResponseText out.reply,
           timestamp := ts },
         { role := Role.model, text := synthFailText, timestamp := ts }] ∧
    (handleUserResponse s txt ts out).turnCount = s.turnCount + 1 ∧
    (handleUserResponse s txt ts out).isSpeaking = s.isSpeaking ∧
    (handleUserResponse s txt ts out).isProcessing = false := by
  refine ⟨?_, ?_, ?_, ?_⟩ <;>
    simp [handleUserResponse, handlerPrelude, applyAction, h]

/-- Claim C2 counterexample: nothing caps the turn counter. In the concrete
`demoTrace` run — greeting plays, then six text submissions each completed
by a successful reply and playback — the state reached has
`turnCount = 6 > MAX_TURNS = 5`, so "turnCount never exceeds maxTurns" is
false. (The code never blocks a submission on `turnCount`; after the fifth
reply's playback the controls are enabled again.) -/
theorem claimC2_counterexample :
    MAX_TURNS < (run (initState "Hello!" true) demoTrace).turnCount ∧
    (run (initState "Hello!" true) demoTrace).turnCount = 6 := by
  decide

/-- Claim C2 (amended): the turn counter is not bounded by `MAX_TURNS`:
every accepted text submission increments it by one regardless of its
current value — there is no guard comparing it to `MAX_TURNS`. -/
theorem claimC2_amended_no_turn_cap (s : CallState) (ts : Nat)
    (out : ExchangeOutcome) (hmode : s.inputMode = InputMode.text)
    (hp : s.isProcessing = false) (hs : s.isSpeaking = false)
    (ht : trimmedNonempty s.textInput = true) :
    (step s (Event.sendText ts out)).turnCount = s.turnCount + 1 := by
  obtain ⟨r, so⟩ := out
  cases so <;>
    simp [step, handleSendText, hmode, hp, hs, ht, handleUserResponse,
      handlerPrelude, applyAction]

/-- Witness for the amended claim C2, at a concrete state whose counter
already equals `MAX_TURNS`: the submission is still accepted and drives the
counter to 6. -/
theorem claimC2_witness :
    atMaxTurnsState.turnCount = MAX_TURNS ∧
    (step atMaxTurnsState (Event.sendText 9 (okOut "Bye!"))).turnCount =
      atMaxTurnsState.turnCount + 1 :=
  ⟨by decide,
   claimC2_amended_no_turn_cap atMaxTurnsState 9 (okOut "Bye!") (by decide)
     (by decide) (by decide) (by decide)⟩

/-- Claim C5 (code bug, evaluated): in the five-turn scenario the spec
describes, after the fifth assistant reply's playback ends the session does
NOT transition to `SessionEnd`: the `onended` closure reads the stale
`turnCount = 4` captured at the render the fifth submission handler came
from, so the `turnCount >= MAX_TURNS` check fails — no end is scheduled
even though `turnCount = 5` and all 11 turns exist. Only after a sixth
submission does a playback end with a captured count of 5, and the history
it hands to `onEndSession` is the stale 11-entry snapshot missing the final
user and assistant turns (the live history has 13). -/
theorem claimC5_code_eval :
    (run (initState "Hello!" true) fiveTurnTrace).turnCount = 5 ∧
    (run (initState "Hello!" true) fiveTurnTrace).messages.length = 11 ∧
    (run (initState "Hello!" true) fiveTurnTrace).isSpeaking = false ∧
    (run (initState "Hello!" true) fiveTurnTrace).endScheduled = none ∧
    (run (initState "Hello!" true) fiveTurnTrace).endedHistory = none ∧
    ((run (initState "Hello!" true) demoTrace).endedHistory.map List.length)
      = some 11 ∧
    (run (initState "Hello!" true) demoTrace).messages.length = 13 := by
  decide

/-- Claim C4 counterexample: when the reply-generation request fails, the
code does NOT skip synthesis and playback. `getTutorResponse` swallows the
failure and returns its fixed fallback string, which is then synthesized
(`synthRequests` grows by `connectFallbackText`) and played
(`isSpeaking = true`). -/
theorem claimC4_counterexample :
    (handleUserResponse textIdleState "Hello" 1
        { reply := ReplyOutcome.requestError, synthOk := true }).synthRequests
      = ["Hi", connectFallbackText] ∧
    (handleUserResponse textIdleState "Hello" 1
        { reply := ReplyOutcome.requestError, synthOk := true }).isSpeaking
      = true := by
  decide

/-- Claim C4 (amended): on a reply-generation request failure exactly one
fallback assistant turn with the fixed text "I'm having trouble connecting.
Could you say that again?" is appended after the user turn, speech synthesis
IS requested for that fallback text and (when synthesis succeeds) playback
starts; processing ends, so the next input is accepted once playback
finishes. -/
theorem claimC4_amended_fallback_is_synthesized (s : CallState) (txt : String)
    (ts : Nat) :
    (handleUserResponse s txt ts
        { reply := ReplyOutcome.requestError, synthOk := true }).messages =
      s.messages ++
        [{ role := Role.user, text := txt, timestamp := ts },
         { role := Role.model, text := connectFallbackText, timestamp := ts }] ∧
    (handleUserResponse s txt ts
        { reply := ReplyOutcome.requestError, synthOk := true }).synthRequests =
      s.synthRequests ++ [connectFallbackText] ∧
    (handleUserResponse s txt ts
        { reply := ReplyOutcome.requestError, synthOk := true }).isSpeaking
      = true ∧
    (handleUserResponse s txt ts
        { reply := ReplyOutcome.requestError, synthOk := true }).isProcessing
      = false := by
  refine ⟨?_, ?_, ?_, ?_⟩ <;>
    simp [handleUserResponse, handlerPrelude, applyAction, getTutorResponseText,
      connectFallbackText]

/-- Claim C6: stopping capture with an empty or whitespace-only transcript
creates no turn, leaves the counter unchanged, shows the "no speech
detected" notice and returns to idle; with a non-whitespace transcript the
normal processing path runs on exactly that transcript. -/
theorem claimC6_stop_capture (s : CallState) (ts : Nat) (out : ExchangeOutcome)
    (hl : s.isListening = true) : StopCaptureSpec s ts out := by
  constructor
  · intro hT
    refine ⟨?_, ?_, ?_, ?_, ?_, ?_⟩ <;>
      simp [step, stopListeningAndSend, hl, hT]
  · intro hT
    simp [step, stopListeningAndSend, hl, hT]

/-- Witness for claim C6 at a concrete listening state with a
whitespace-only transcript. -/
theorem claimC6_witness :
    listeningBlankState.isListening = true ∧
    StopCaptureSpec listeningBlankState 7 (okOut "Great!") :=
  ⟨by decide, claimC6_stop_capture listeningBlankState 7 (okOut "Great!") (by decide)⟩

/-- Claim C9 counterexample: in `handleUserResponse` the counter update
(`setTurnCount(turnCount + 1)`, line 253) is issued BEFORE the optimistic
history append (line 256): after the first two statements of the prelude
have run, the counter is already incremented while no user turn has been
appended — so "the turn counter is incremented strictly after the append"
is false on the code's statement order. -/
theorem claimC9_counterexample :
    ((handlerPrelude.take 2).foldl (applyAction "I like sushi" 3)
        textIdleState).turnCount = textIdleState.turnCount + 1 ∧
    ((handlerPrelude.take 2).foldl (applyAction "I like sushi" 3)
        textIdleState).messages = textIdleState.messages := by
  decide

/-- Claim C9 (amended): the code pins the OPPOSITE ordering to the one in
the spec: the increment comes strictly before the optimistic append in the
statement order of `handleUserResponse`, and at the intermediate point just
after the increment the history is still untouched, for every state. -/
theorem claimC9_amended_increment_before_append :
    handlerPrelude.indexOf HandlerAction.incTurnCount
      < handlerPrelude.indexOf HandlerAction.appendUserMessage ∧
    ∀ (s : CallState) (txt : String) (ts : Nat),
      ((handlerPrelude.take 2).foldl (applyAction txt ts) s).turnCount
        = s.turnCount + 1 ∧
      ((handlerPrelude.take 2).foldl (applyAction txt ts) s).messages
        = s.messages := by
  constructor
  · decide
  · intro s txt ts
    constructor <;> simp [handlerPrelude, applyAction]

/-- One step preserves the greeting-plus-alternating-pairs history shape,
provided the event's synthesis (if it has one) succeeds. -/
theorem step_role_shape (s : CallState) (e : Event)
    (he : eventSynthOk e = true)
    (hJ : s.messages.map Message.role = rolePattern s.turnCount) :
    (step s e).messages.map Message.role = rolePattern (step s e).turnCount := by
  cases e with
  | tapMic =>
    simp only [step, startListening]
    split
    · simpa using hJ
    · exact hJ
  | recognize t =>
    simp only [step]
    split
    · simpa using hJ
    · exact hJ
  | setTextInput t =>
    simp only [step]
    split
    · simpa using hJ
    · exact hJ
  | toggle =>
    simpa only [step, toggleMode] using hJ
  | endTimer =>
    simp only [step, endTimerFires]
    split
    · exact hJ
    · simpa using hJ
  | playbackDone =>
    simp only [step, playbackEnds]
    split
    · exact hJ
    · split
      · simpa using hJ
      · simpa using hJ
  | mergeArrives t p =>
    simpa only [step, mergePronunciation_map_role] using hJ
  | stopAndSend ts out =>
    have hok : out.synthOk = true := by simpa [eventSynthOk] using he
    simp only [step, stopListeningAndSend]
    split
    · exact hJ
    · split
      · obtain ⟨hm, ht, _⟩ :=
          handleUserResponse_ok_spec { s with isListening := false }
            s.transcript ts out hok
        rw [hm, ht]
        simp only [List.map_append]
        simp [hJ, rolePattern]
      · simpa using hJ
  | sendText ts out =>
    have hok : out.synthOk = true := by simpa [eventSynthOk] using he
    simp only [step, handleSendText]
    split
    · have hspec := handleUserResponse_ok_spec s s.textInput ts out hok
      obtain ⟨hm, ht, _⟩ := hspec
      have hm2 : ({ handleUserResponse s s.textInput ts out with
          textInput := "" } : CallState).messages
            = (handleUserResponse s s.textInput ts out).messages := rfl
      have ht2 : ({ handleUserResponse s s.textInput ts out with
          textInput := "" } : CallState).turnCount
            = (handleUserResponse s s.textInput ts out).turnCount := rfl
      rw [hm2, ht2, hm, ht]
      simp only [List.map_append]
      simp [hJ, rolePattern]
    · exact hJ

/-- Running any sequence of events whose syntheses all succeed preserves the
history shape. -/
theorem run_role_shape (es : List Event) : ∀ s : CallState,
    es.all eventSynthOk = true →
    s.messages.map Message.role = rolePattern s.turnCount →
    (run s es).messages.map Message.role = rolePattern (run s es).turnCount := by
  induction es with
  | nil =>
    intro s _ hJ
    simpa only [run, List.foldl_nil] using hJ
  | cons e rest ih =>
    intro s hall hJ
    simp only [List.all_cons, Bool.and_eq_true] at hall
    have h2 := ih (step s e) hall.2 (step_role_shape s e hall.1 hJ)
    simpa only [run, List.foldl_cons] using h2

/-- Claim C3 counterexample: the claim fails for an exchange whose speech
synthesis failed. In `synthFailTrace` the single exchange's reply succeeds
but synthesis throws, so the `catch` appends a second assistant message:
the history has 4 entries instead of `2 * turnCount + 1 = 3`, with two
consecutive assistant turns. -/
theorem claimC3_counterexample :
    (run (initState "Hello!" true) synthFailTrace).turnCount = 1 ∧
    (run (initState "Hello!" true) synthFailTrace).messages.length = 4 ∧
    (run (initState "Hello!" true) synthFailTrace).messages.length ≠
      2 * (run (initState "Hello!" true) synthFailTrace).turnCount + 1 ∧
    (run (initState "Hello!" true) synthFailTrace).messages.map Message.role
      = [Role.model, Role.user, Role.model, Role.model] := by
  decide

/-- Claim C3 (amended): after every completed exchange in which speech
synthesis succeeded (reply-generation request failures included — they are
converted to a normal fallback reply), the history is the greeting followed
by strictly alternating user/assistant pairs and has length
`2 * turnCount + 1`. An exchange whose synthesis throws instead appends two
consecutive assistant messages, giving length `2 * turnCount + 2`. -/
theorem claimC3_amended_history_shape (g : String) (gok : Bool)
    (es : List Event) (h : es.all eventSynthOk = true) :
    (run (initState g gok) es).messages.map Message.role
      = rolePattern (run (initState g gok) es).turnCount ∧
    (run (initState g gok) es).messages.length
      = 2 * (run (initState g gok) es).turnCount + 1 := by
  have h0 : (initState g gok).messages.map Message.role
      = rolePattern (initState g gok).turnCount := by
    simp [initState, rolePattern]
  have hmain := run_role_shape es (initState g gok) h h0
  refine ⟨hmain, ?_⟩
  have hlen := congrArg List.length hmain
  simpa [rolePattern_length] using hlen

/-- Witness for the amended claim C3 on the all-successful `demoTrace`. -/
theorem claimC3_witness :
    demoTrace.all eventSynthOk = true ∧
    ((run (initState "Hello!" true) demoTrace).messages.map Message.role
        = rolePattern (run (initState "Hello!" true) demoTrace).turnCount ∧
     (run (initState "Hello!" true) demoTrace).messages.length
        = 2 * (run (initState "Hello!" true) demoTrace).turnCount + 1) :=
  ⟨by decide, claimC3_amended_history_shape "Hello!" true demoTrace (by decide)⟩

/-- Claim C7 counterexample: when the report REQUEST fails (rather than its
response being unparseable), the substituted report is the App-level
fallback, which contains no pronunciation summary at all — not one with a
zero average score. -/
theorem claimC7_counterexample :
    (handleEndSession ReportFetch.requestError).2 = some appFallbackFeedback ∧
    appFallbackFeedback.pronunciationReview = none := by
  decide

/-- Claim C7 (amended): on any feedback-generation failure the session still
reaches the terminal `FEEDBACK_VIEW` with a substituted default report with
empty corrections and vocabulary whose displayed pronunciation average is
zero; on an unparseable response that report is the service-level default
("Could not generate feedback.", zero-average summary), while on a request
error it is the App-level default ("Great practice session!") which omits
the pronunciation summary entirely. -/
theorem claimC7_amended_default_report (r : ReportFetch)
    (h : reportFetchFails r = true) :
    (handleEndSession r).1 = AppState.FEEDBACK_VIEW ∧
    ∃ rep, (handleEndSession r).2 = some rep ∧
      rep.corrections = [] ∧ rep.vocabulary = [] ∧
      displayedAvgScore rep = 0 ∧
      (r = ReportFetch.requestError → rep = appFallbackFeedback) ∧
      (r = ReportFetch.responseOk none → rep = parseFailFeedback) := by
  cases r with
  | requestError =>
    refine ⟨rfl, appFallbackFeedback, rfl, rfl, rfl, rfl, fun _ => rfl, fun hc => ?_⟩
    cases hc
  | responseOk p =>
    cases p with
    | none =>
      refine ⟨rfl, parseFailFeedback, rfl, rfl, rfl, rfl, fun hc => ?_, fun _ => rfl⟩
      cases hc
    | some fb => simp [reportFetchFails] at h

/-- Witness for the amended claim C7 at the request-error failure. -/
theorem claimC7_witness :
    reportFetchFails ReportFetch.requestError = true ∧
    ((handleEndSession ReportFetch.requestError).1 = AppState.FEEDBACK_VIEW ∧
     ∃ rep, (handleEndSession ReportFetch.requestError).2 = some rep ∧
       rep.corrections = [] ∧ rep.vocabulary = [] ∧
       displayedAvgScore rep = 0 ∧
       (ReportFetch.requestError = ReportFetch.requestError →
         rep = appFallbackFeedback) ∧
       (ReportFetch.requestError = ReportFetch.responseOk none →
         rep = parseFailFeedback)) :=
  ⟨by decide, claimC7_amended_default_report ReportFetch.requestError (by decide)⟩

theorem toInt16_range (lo hi : Nat) (hlo : lo < 256) (hhi : hi < 256) :
    -32768 ≤ toInt16 lo hi ∧ toInt16 lo hi ≤ 32767 := by
  simp only [toInt16]
  split
  · constructor <;> omega
  · constructor <;> omega

theorem bytesToInt16_range (bs : List Nat) : (∀ b ∈ bs, b < 256) →
    ∀ ints, bytesToInt16 bs = some ints →
      ∀ x ∈ ints, -32768 ≤ x ∧ x ≤ 32767 := by
  induction bs using bytesToInt16.induct with
  | case1 =>
    intro _ ints heq x hx
    simp only [bytesToInt16, Option.some.injEq] at heq
    subst heq
    simp at hx
  | case2 b =>
    intro _ ints heq
    simp [bytesToInt16] at heq
  | case3 lo hi rest ih =>
    intro hb ints heq
    simp only [bytesToInt16, Option.map_eq_some'] at heq
    obtain ⟨l, hl, hints⟩ := heq
    subst hints
    intro x hx
    rcases List.mem_cons.mp hx with hx0 | hxl
    · subst hx0
      exact toInt16_range lo hi (hb lo (by simp)) (hb hi (by simp))
    · exact ih (fun b hbmem => hb b (by simp [hbmem])) l hl x hxl

/-- Claim C8: every synthesized-speech byte buffer accepted by the manual
PCM decode yields a 24000 Hz mono buffer whose samples, each a signed
16-bit integer divided by 32768, all lie in [-1, 1]. -/
theorem claimC8_pcm_decode (bs : List Nat) (hb : ∀ b ∈ bs, b < 256)
    (d : DecodedAudio) (hd : playAudioDecode bs = some d) :
    d.sampleRate = 24000 ∧ d.numChannels = 1 ∧
    ∀ q ∈ d.samples, -1 ≤ q ∧ q ≤ 1 := by
  simp only [playAudioDecode, Option.map_eq_some'] at hd
  obtain ⟨ints, hints, hfd⟩ := hd
  subst hfd
  refine ⟨rfl, rfl, ?_⟩
  intro q hq
  simp only [List.mem_map] at hq
  obtain ⟨x, hxmem, hxq⟩ := hq
  have hrange := bytesToInt16_range bs hb ints hints x hxmem
  subst hxq
  have hlo : (-32768 : ℚ) ≤ (x : ℚ) := by exact_mod_cast hrange.1
  have hhi : (x : ℚ) ≤ 32767 := by exact_mod_cast hrange.2
  constructor
  · rw [normalizeSample, le_div_iff₀ (by norm_num : (0 : ℚ) < 32768)]
    linarith
  · rw [normalizeSample, div_le_one (by norm_num : (0 : ℚ) < 32768)]
    linarith

/-- Witness for claim C8 at the two-byte buffer `[0, 128]`, which decodes to
the single most negative sample `-32768 / 32768 = -1`. -/
theorem claimC8_witness :
    (∀ b ∈ [0, 128], b < 256) ∧
    playAudioDecode [0, 128] = some decodedC8 ∧
    (decodedC8.sampleRate = 24000 ∧ decodedC8.numChannels = 1 ∧
     ∀ q ∈ decodedC8.samples, -1 ≤ q ∧ q ≤ 1) :=
  ⟨by decide,
   by norm_num [playAudioDecode, bytesToInt16, toInt16, normalizeSample, decodedC8],
   claimC8_pcm_decode [0, 128] (by decide) decodedC8
     (by norm_num [playAudioDecode, bytesToInt16, toInt16, normalizeSample, decodedC8])⟩

theorem feedbackHistoryLine_withPron_sentinel (m : Message)
    (h : m.pronunciation = none) :
    feedbackHistoryLine (withPron sentinelPron m) = feedbackHistoryLine m := by
  simp [feedbackHistoryLine, withPron, h, sentinelPron]

theorem mergeRev_sentinel_lines (t : String) :
    ∀ l : List Message,
      (mergeRev t sentinelPron l).map feedbackHistoryLine
        = l.map feedbackHistoryLine := by
  intro l
  induction l with
  | nil => rfl
  | cons m rest ih =>
    by_cases h : isUnscoredUserWith t m
    · have hnone : m.pronunciation = none := by
        have h2 := h
        simp only [isUnscoredUserWith, Bool.and_eq_true,
          Option.isNone_iff_eq_none] at h2
        exact h2.2
      simp [mergeRev, h, feedbackHistoryLine_withPron_sentinel m hnone]
    · simp [mergeRev, h, ih]

theorem mergePronunciation_sentinel_text (t : String) (ms : List Message) :
    feedbackHistoryText (mergePronunciation t sentinelPron ms)
      = feedbackHistoryText ms := by
  unfold feedbackHistoryText
  congr 1
  unfold mergePronunciation
  rw [List.map_reverse, mergeRev_sentinel_lines, List.map_reverse,
    List.reverse_reverse]

/-- Claim C10: with no audio attached, the analysis returns the sentinel
`{score: -1, feedback: "Text input provided."}` independently of the
service outcome (no network request is involved); a turn carrying the
sentinel fails the `score >= 0` filter of the pronunciation bubble and of
the feedback-history text, and merging the sentinel into a history never
changes the text handed to the feedback generator. -/
theorem claimC10_sentinel_filtered (t : String) (o o2 : AnalysisOutcome)
    (m : Message) (hm : m.pronunciation = some sentinelPron)
    (ms : List Message) :
    analyzeStudentInput t none o = some sentinelPron ∧
    analyzeStudentInput t none o = analyzeStudentInput t none o2 ∧
    showPronBubble m = false ∧
    feedbackHistoryLine m = feedbackHistoryLine { m with pronunciation := none } ∧
    feedbackHistoryText (mergePronunciation t sentinelPron ms)
      = feedbackHistoryText ms := by
  refine ⟨rfl, rfl, ?_, ?_, mergePronunciation_sentinel_text t ms⟩
  · simp [showPronBubble, hm, sentinelPron]
  · simp [feedbackHistoryLine, hm, sentinelPron]

/-- Witness for claim C10 at a concrete sentinel-carrying user turn. -/
theorem claimC10_witness :
    ({ role := Role.user, text := "Typed answer", timestamp := 2,
       pronunciation := some sentinelPron } : Message).pronunciation
        = some sentinelPron ∧
    (analyzeStudentInput "Typed answer" none AnalysisOutcome.failure
        = some sentinelPron ∧
     analyzeStudentInput "Typed answer" none AnalysisOutcome.failure
        = analyzeStudentInput "Typed answer" none
            (AnalysisOutcome.json (some 55) (some "ok")) ∧
     showPronBubble
        { role := Role.user, text := "Typed answer", timestamp := 2,
          pronunciation := some sentinelPron } = false ∧
     feedbackHistoryLine
        { role := Role.user, text := "Typed answer", timestamp := 2,
          pronunciation := some sentinelPron }
        = feedbackHistoryLine
            { ({ role := Role.user, text := "Typed answer", timestamp := 2,
                 pronunciation := some sentinelPron } : Message) with
              pronunciation := none } ∧
     feedbackHistoryText
        (mergePronunciation "Typed answer" sentinelPron witnessHistoryC1)
        = feedbackHistoryText witnessHistoryC1) :=
  ⟨rfl,
   claimC10_sentinel_filtered "Typed answer" AnalysisOutcome.failure
     (AnalysisOutcome.json (some 55) (some "ok"))
     { role := Role.user, text := "Typed answer", timestamp := 2,
       pronunciation := some sentinelPron } rfl witnessHistoryC1⟩
